import Mathlib

/-!
Verification of the chat-session manager, remote-query normalization,
throttling and telemetry-polling logic of the Brainwave AI Debugger
(`DebuggerChatbot` component).  The definitions below are shallow
embeddings of the JavaScript source (the `src/unnamed/part_003` variant,
which the other variants closely follow); machine timestamps are `Int`
milliseconds, JS strings are Lean `String`s, and absent/`undefined`
fields are `Option` values.
-/

namespace Brainwave

/-- JS `s.substring(0, n)`: the first `n` characters of `s`. -/
def jsSubstring (s : String) (n : Nat) : String := ⟨s.data.take n⟩

/-- JS `s.includes(sub)`. -/
def jsIncludes (s sub : String) : Bool := decide (sub.data <:+: s.data)

/-- JS `s.trim()`: strip whitespace from both ends. -/
def jsTrim (s : String) : String :=
  ⟨((s.data.dropWhile fun c => c.isWhitespace).reverse.dropWhile
      fun c => c.isWhitespace).reverse⟩

/-- A chat message record (`part_003`, message objects built in `handleSearch`). -/
structure Message where
  id : String
  sender : String
  text : String
  isMarkdown : Bool := false
  timestamp : Int := 0
deriving Repr, DecidableEq

/-- A chat session record (`part_003`, `createNewSession` and session updates). -/
structure Session where
  id : String
  name : String
  timestamp : Int
  messages : List Message
  isNew : Bool
deriving Repr, DecidableEq

/-- `createNewSession` (`part_003` lines 129-138); the generated uuid and the
clock reading are passed in explicitly. -/
def createNewSession (id : String) (now : Int) : Session :=
  { id := id, name := "New Chat", timestamp := now, messages := [], isNew := true }

/-- `generateSessionTitle` (`part_003` lines 140-149): title of the first
user-authored message, truncated to 40 characters with an ellipsis appended
when truncated; `"New Chat"` when no user message with truthy text exists. -/
def generateSessionTitle (msgs : List Message) : String :=
  match msgs.find? (fun m => m.sender == "user") with
  | some m =>
      if m.text == "" then "New Chat"
      else
        let title := jsSubstring m.text 40
        if title.length < m.text.length then title ++ "..." else title
  | none => "New Chat"

/-- Result of a `switchSession` call: the session list, the current-session
pointer and the active message list afterwards. -/
structure SwitchResult where
  sessions : List Session
  currentSessionId : String
  messages : List Message
deriving Repr, DecidableEq

/-- `switchSession` (`part_003` lines 151-170).  If the requested id is found
the session becomes current and its messages become active; otherwise a fresh
session (uuid `freshId`, clock `now`) is prepended to the list with any stale
entry carrying the requested id filtered out, and it becomes current with an
empty message list. -/
def switchSession (sessionId : String) (allSessions : List Session)
    (freshId : String) (now : Int) : SwitchResult :=
  match allSessions.find? (fun s => s.id == sessionId) with
  | some s => { sessions := allSessions, currentSessionId := sessionId, messages := s.messages }
  | none =>
      let newSession := createNewSession freshId now
      { sessions := newSession :: allSessions.filter (fun s => s.id != sessionId),
        currentSessionId := newSession.id,
        messages := [] }

/-- Head of the JS stable sort by descending timestamp used in
`handleConfirmDelete` (`sortedSessions[0]`): the earliest-listed session whose
timestamp is maximal. -/
def mostRecentOf (s : Session) (rest : List Session) : Session :=
  rest.foldl (fun best t => if t.timestamp > best.timestamp then t else best) s

/-- Result of a session deletion: the session list and the current-session id. -/
structure DeleteResult where
  sessions : List Session
  currentSessionId : String
deriving Repr, DecidableEq

/-- `handleConfirmDelete` (`part_003` lines 198-240) composed with the deferred
`switchSession` call it schedules.  Deleting the current session switches to
the remaining session with the greatest timestamp, or to a fresh session when
none remain; deleting a non-current session only filters the list. -/
def handleConfirmDelete (sessionToDelete currentSessionId : String)
    (prevSessions : List Session) (freshId : String) (now : Int) : DeleteResult :=
  let remaining := prevSessions.filter (fun s => s.id != sessionToDelete)
  if sessionToDelete == currentSessionId then
    match remaining with
    | [] =>
        let newSession := createNewSession freshId now
        { sessions := [newSession], currentSessionId := newSession.id }
    | s :: rest => { sessions := remaining, currentSessionId := (mostRecentOf s rest).id }
  else { sessions := remaining, currentSessionId := currentSessionId }

/-- The per-session update applied to the current session when the user submits
a prompt (`part_003` lines 430-450): append the message, derive the title when
the session was new and empty, clear `isNew`, refresh the timestamp. -/
def appendUserMessage (now : Int) (userMessage : Message) (session : Session) : Session :=
  let updatedMessages := session.messages ++ [userMessage]
  { session with
      messages := updatedMessages,
      name :=
        if session.isNew && session.messages.length == 0 then
          generateSessionTitle updatedMessages
        else session.name,
      isNew := false,
      timestamp := now }

/-- The per-session update appending the assistant (or system error) reply to
the current session (`part_003` lines 567-576 and 592-601): only the message
list changes. -/
def appendAwsMessage (awsMessage : Message) (session : Session) : Session :=
  { session with messages := session.messages ++ [awsMessage] }

/-- Shape of one session record as serialized to `localStorage`;
`isNew = none` models the field being `undefined` and hence dropped by
`JSON.stringify`. -/
structure PersistedSession where
  id : String
  name : String
  timestamp : Int
  messages : List Message
  isNew : Option Bool
deriving Repr, DecidableEq

/-- `persistSessions` (`part_003` lines 172-191): each record's `isNew` is
recomputed from its message list (`true` when empty, absent otherwise) and
records with a falsy id are dropped. -/
def persistSessions (sessions : List Session) : List PersistedSession :=
  (sessions.map fun s =>
    { id := s.id, name := s.name, timestamp := s.timestamp, messages := s.messages,
      isNew := if s.messages.length == 0 then some true else none }).filter
    (fun s => s.id != "")

/-- Re-hydration of one persisted record on component load (`part_003` lines
646-654): falsy fields fall back to a fresh uuid / `"Chat"` / the clock, and
`isNew` is recomputed from the stored message list. -/
def loadSession (fallbackId : String) (now : Int) (p : PersistedSession) : Session :=
  { id := if p.id != "" then p.id else fallbackId,
    name := if p.name != "" then p.name else "Chat",
    timestamp := if p.timestamp != 0 then p.timestamp else now,
    messages := p.messages,
    isNew := p.messages.length == 0 }

/-- Modelled from the spec: `handleSearch` is wrapped in lodash's
`throttle(fn, 1000, \x7bleading: true, trailing: false\x7d)` (`part_003` lines
402-608), and the lodash implementation itself is not part of this repository.
Per the spec's glossary a leading-edge throttle "allows the first call in a
window through and drops subsequent calls until the window elapses", and with
trailing invocation disabled nothing fires on the trailing edge.  The state is
the time of the last submission that invoked the wrapped function. -/
def throttleStep (wait : Int) (lastInvoke : Option Int) (t : Int) : Bool × Option Int :=
  match lastInvoke with
  | none => (true, some t)
  | some l => if t - l ≥ wait then (true, some t) else (false, some l)

/-- Run a sequence of submissions `(time, prompt)` through the throttle,
returning the submissions that invoke the wrapped `handleSearch` body. -/
def runThrottle (wait : Int) (lastInvoke : Option Int) :
    List (Int × String) → List (Int × String)
  | [] => []
  | e :: es =>
      match throttleStep wait lastInvoke e.1 with
      | (true, last) => e :: runThrottle wait last es
      | (false, last) => runThrottle wait last es

/-- Guards at the head of the `handleSearch` body (`part_003` lines 405-416):
the remote Lambda call is initiated exactly when the trimmed prompt is
nonempty, a user is signed in, and a Lambda function name is configured. -/
def initiatesRemoteCall (user : Option String) (lambdaFunction : String)
    (prompt : String) : Bool :=
  jsTrim prompt != "" && user.isSome && lambdaFunction != ""

/-- Number of remote inference calls initiated by a submission sequence fed to
the throttled `handleSearch`. -/
def remoteCallCount (user : Option String) (lambdaFunction : String)
    (submissions : List (Int × String)) : Nat :=
  ((runThrottle 1000 none submissions).filter fun e =>
    initiatesRemoteCall user lambdaFunction e.2).length

/-- Parameters of the CloudWatch Logs query. -/
structure LogQueryParams where
  logGroupName : String
  limit : Nat
  startTime : Int
  interleaved : Bool
deriving Repr, DecidableEq

/-- The single log query issued by `fetchCloudWatchLogs`
(`part_003` lines 360-365). -/
def logQueryParams (lambdaFunction : String) (now : Int) : LogQueryParams :=
  { logGroupName := "/aws/lambda/" ++ lambdaFunction,
    limit := 20,
    startTime := now - 60 * 60 * 1000,
    interleaved := true }

/-- One event message mapped to a display line (`part_003` line 376). -/
def logLineOf (message : Option String) : String :=
  match message with
  | some t => if jsTrim t == "" then "Empty log message" else jsTrim t
  | none => "Empty log message"

/-- Outcome of one log fetch: superseded (the captured abort signal fired
before the result was applied), rejected with a non-abort error, or resolved
with the list of event messages. -/
inductive LogFetchOutcome where
  | aborted
  | failed
  | success (events : List (Option String))
deriving Repr, DecidableEq

/-- Effect of a finished log fetch on the `cloudWatchLogs` state
(`part_003` lines 368-399). -/
def applyLogFetch (prev : List String) : LogFetchOutcome → List String
  | .aborted => prev
  | .failed => ["Error fetching logs."]
  | .success events =>
      let logs := events.map logLineOf
      if logs.length == 0 then ["No recent logs found."] else logs

/-- Log line display text (`part_003` line 953). -/
def displayLogText (log : String) : String :=
  if log.length > 150 then jsSubstring log 150 ++ "..." else log

/-- Log line tooltip, the `title` attribute (`part_003` line 951). -/
def displayLogTitle (log : String) : String := log

/-- Abort bookkeeping of the telemetry poller: each log fetch is numbered with
the value of `issued` when it starts; `current` is the token of the most
recently started fetch, the only one whose captured signal has not fired. -/
structure PollState where
  issued : Nat
  current : Option Nat
  logs : List String
deriving Repr, DecidableEq

/-- Events of a poller trace: a poll cycle starts a log fetch (aborting the
previous controller before issuing the new query, `part_003` lines 353-355),
or a previously started fetch resolves or rejects. -/
inductive PollEvent where
  | start
  | resolve (token : Nat) (events : List (Option String))
  | reject (token : Nat)
deriving Repr, DecidableEq

/-- One step of the poller.  A resolving fetch checks its captured signal and
discards its result when superseded (`part_003` lines 368-371); a rejecting
fetch writes the error sentinel without consulting the signal (`part_003`
lines 384-398; the abort signal is never wired into the SDK call, so a
rejection is never abort-caused). -/
def pollStep (σ : PollState) : PollEvent → PollState
  | .start => { σ with issued := σ.issued + 1, current := some σ.issued }
  | .resolve token events =>
      if some token == σ.current then
        { σ with logs := applyLogFetch σ.logs (.success events) }
      else σ
  | .reject _ => { σ with logs := applyLogFetch σ.logs .failed }

/-- Run a poller trace from the initial state (no fetch started, empty panel). -/
def runPoll (trace : List PollEvent) : PollState :=
  trace.foldl pollStep { issued := 0, current := none, logs := [] }

/-- JSON values as produced by `JSON.parse` (arrays are not modelled; no
payload relevant to the claims contains one). -/
inductive JVal where
  | jnull
  | jbool (b : Bool)
  | jnum (n : Int)
  | jstr (s : String)
  | jobj (fields : List (String × JVal))

/-- Field lookup on a parsed object; with duplicate keys `JSON.parse` keeps
the last occurrence. -/
def getField : List (String × JVal) → String → Option JVal
  | [], _ => none
  | (k, v) :: rest, key =>
      match getField rest key with
      | some r => some r
      | none => if k == key then some v else none

/-- JS property access `v.key`: `undefined` (`none`) on non-objects. -/
def JVal.get : JVal → String → Option JVal
  | .jobj fields, key => getField fields key
  | _, _ => none

/-- JS truthiness of a possibly-`undefined` value. -/
def truthy : Option JVal → Bool
  | none => false
  | some .jnull => false
  | some (.jbool b) => b
  | some (.jnum n) => n != 0
  | some (.jstr s) => s != ""
  | some (.jobj _) => true

/-- First truthy value of a JS `||` chain, if any. -/
def firstTruthy : List (Option JVal) → Option JVal
  | [] => none
  | v :: rest => if truthy v then v else firstTruthy rest

/-- JS string coercion of a value, as in template literals and `new Error`. -/
def displayJVal : JVal → String
  | .jnull => "null"
  | .jbool true => "true"
  | .jbool false => "false"
  | .jnum n => toString n
  | .jstr s => s
  | .jobj _ => "[object Object]"

/-- Drop leading JSON whitespace. -/
def skipWs : List Char → List Char
  | [] => []
  | c :: cs =>
      if c == ' ' || c == '\n' || c == '\t' || c == '\r' then skipWs cs else c :: cs

/-- Parse the body of a JSON string literal after its opening quote, returning
the decoded string and the input past the closing quote. -/
def parseStringBody : List Char → Option (String × List Char)
  | [] => none
  | c :: cs =>
      if c == '"' then some ("", cs)
      else if c == '\\' then
        match cs with
        | [] => none
        | e :: cs2 =>
            let d : Option Char :=
              if e == '"' then some '"'
              else if e == '\\' then some '\\'
              else if e == '/' then some '/'
              else if e == 'n' then some '\n'
              else if e == 't' then some '\t'
              else if e == 'r' then some '\r'
              else none
            match d with
            | none => none
            | some d =>
                match parseStringBody cs2 with
                | none => none
                | some (s, rest) => some (⟨d :: s.data⟩, rest)
      else
        match parseStringBody cs with
        | none => none
        | some (s, rest) => some (⟨c :: s.data⟩, rest)

/-- Parse a nonempty run of decimal digits. -/
def parseNatLit (cs : List Char) : Option (Nat × List Char) :=
  let ds := cs.takeWhile (fun c => c.isDigit)
  if ds.isEmpty then none
  else some (ds.foldl (fun a c => a * 10 + (c.toNat - 48)) 0, cs.dropWhile (fun c => c.isDigit))

mutual

/-- Parse one JSON value: fuel-bounded recursive descent over the grammar the
component's payloads use (objects, strings, integers, booleans, null). -/
def parseVal : Nat → List Char → Option (JVal × List Char)
  | 0, _ => none
  | fuel + 1, cs0 =>
      match skipWs cs0 with
      | [] => none
      | '"' :: rest => (parseStringBody rest).map fun p => (JVal.jstr p.1, p.2)
      | '{' :: rest =>
          match skipWs rest with
          | '}' :: r2 => some (JVal.jobj [], r2)
          | r1 => (parseMembers fuel r1).map fun p => (JVal.jobj p.1, p.2)
      | 't' :: rest =>
          if [ 'r', 'u', 'e'].isPrefixOf rest then some (JVal.jbool true, rest.drop 3)
          else none
      | 'f' :: rest =>
          if [ 'a', 'l', 's', 'e'].isPrefixOf rest then some (JVal.jbool false, rest.drop 4)
          else none
      | 'n' :: rest =>
          if [ 'u', 'l', 'l'].isPrefixOf rest then some (JVal.jnull, rest.drop 3)
          else none
      | '-' :: rest =>
          match parseNatLit rest with
          | some (n, r) => some (JVal.jnum (-(n : Int)), r)
          | none => none
      | c :: rest =>
          if c.isDigit then
            match parseNatLit (c :: rest) with
            | some (n, r) => some (JVal.jnum (n : Int), r)
            | none => none
          else none

/-- Parse the members of a JSON object after its opening brace, up to and
including the closing brace. -/
def parseMembers : Nat → List Char → Option (List (String × JVal) × List Char)
  | 0, _ => none
  | fuel + 1, cs =>
      match skipWs cs with
      | '"' :: rest =>
          match parseStringBody rest with
          | none => none
          | some (key, r1) =>
              match skipWs r1 with
              | ':' :: r2 =>
                  match parseVal fuel r2 with
                  | none => none
                  | some (v, r3) =>
                      match skipWs r3 with
                      | ',' :: r4 =>
                          match parseMembers fuel r4 with
                          | none => none
                          | some (fs, r5) => some ((key, v) :: fs, r5)
                      | '}' :: r4 => some ([(key, v)], r4)
                      | _ => none
              | _ => none
      | _ => none

end

/-- `JSON.parse` on the payload grammar: parse one value and require only
whitespace to remain. -/
def parseJson (s : String) : Option JVal :=
  match parseVal (s.length + 1) s.data with
  | some (v, rest) => if (skipWs rest).isEmpty then some v else none
  | none => none

/-- `typeof v === "string"`. -/
def isStringJVal : Option JVal → Bool
  | some (.jstr _) => true
  | _ => false

/-- The string content of a string-typed value. -/
def stringOfJVal : Option JVal → String
  | some (.jstr s) => s
  | _ => ""

/-- JS `statusCode >= 400` on the payload's `statusCode` field.  The claims
only exercise numeric status codes; comparison of a non-numeric value is
modelled as false. -/
def statusCodeAtLeast400 : Option JVal → Bool
  | some (.jnum n) => n ≥ 400
  | _ => false

/-- The application-level error message computed for a gateway envelope with
`statusCode >= 400` (`part_003` lines 516-527):
`errorBody.error || errorBody.message || responsePayload.body || default`,
falling back to `responsePayload.body || default` when the body fails to
parse as JSON. -/
def envelopeErrorMsg (statusCode : JVal) (body : String) : String :=
  let dfl := "Lambda invocation failed with status " ++ displayJVal statusCode
  match parseJson (if body == "" then "\x7b\x7d" else body) with
  | some errorBody =>
      match firstTruthy [errorBody.get "error", errorBody.get "message"] with
      | some v => displayJVal v
      | none => if body != "" then body else dfl
  | none => if body != "" then body else dfl

/-- The inner response-parsing block of `handleSearch` (`part_003` lines
505-535) before its `catch`: either the parsed `resultBody`, or a thrown
error message. -/
def parseLambdaBody (payloadString : String) : Except String JVal :=
  match parseJson payloadString with
  | none => Except.error "SyntaxError"
  | some responsePayload =>
      if truthy (responsePayload.get "statusCode")
          && isStringJVal (responsePayload.get "body") then
        let body := stringOfJVal (responsePayload.get "body")
        if statusCodeAtLeast400 (responsePayload.get "statusCode") then
          Except.error
            (envelopeErrorMsg ((responsePayload.get "statusCode").getD JVal.jnull) body)
        else
          match parseJson (if body == "" then "\x7b\x7d" else body) with
          | none => Except.error "SyntaxError"
          | some resultBody => Except.ok resultBody
      else Except.ok responsePayload

/-- The same block together with its `catch (parseErr)` handler (`part_003`
lines 536-543): every exception thrown inside the block - including the
deliberately thrown application error of the `statusCode >= 400` branch - is
replaced by the generic invalid-response message. -/
def resultBodyOf (payloadString : String) : Except String JVal :=
  match parseLambdaBody payloadString with
  | Except.ok resultBody => Except.ok resultBody
  | Except.error _ => Except.error "Received an invalid response from the service."

/-- Markdown detection applied to the normalized answer text (`part_003` lines
552-556): a fenced code block marker anywhere, or a list bullet immediately
preceded by a newline. -/
def isMarkdownAnswer (text : String) : Bool :=
  jsIncludes text "```" || jsIncludes text "\n*" || jsIncludes text "\n- "

/-- A normalized `ask` outcome: a failure message (surfaced as a system chat
message) or an answer text with its markdown flag. -/
inductive NormalizedAnswer where
  | failure (message : String)
  | answer (text : String) (isMarkdown : Bool)
deriving Repr, DecidableEq

/-- Normalization of one successful Lambda invocation payload (`part_003`
lines 498-564): the answer text is
`resultBody.response || resultBody.message || "No meaningful response received."`
and the markdown flag is computed only for string-typed answers. -/
def normalizeLambdaPayload (payloadString : String) : NormalizedAnswer :=
  match resultBodyOf payloadString with
  | Except.error msg => NormalizedAnswer.failure msg
  | Except.ok resultBody =>
      let awsResponseText : JVal :=
        (firstTruthy [resultBody.get "response", resultBody.get "message"]).getD
          (JVal.jstr "No meaningful response received.")
      let isMd : Bool :=
        match awsResponseText with
        | .jstr t => isMarkdownAnswer t
        | _ => false
      NormalizedAnswer.answer (displayJVal awsResponseText) isMd

/-- C6: for every message list, `generateSessionTitle` returns a string of
length at most 43 characters (the first 40 characters of the first
user-authored message's text, with "..." appended when that text was
truncated), and returns the fixed default title `"New Chat"` for every
message list containing no message with sender `"user"`. -/
theorem generateSessionTitle_spec (msgs : List Message) :
    (generateSessionTitle msgs).length ≤ 43 ∧
    ((∀ m ∈ msgs, m.sender ≠ "user") → generateSessionTitle msgs = "New Chat") := by
  constructor
  · unfold generateSessionTitle
    cases hfind : msgs.find? (fun m => m.sender == "user") with
    | none => decide
    | some m =>
        show (if m.text == "" then "New Chat"
          else
            let title := jsSubstring m.text 40
            if title.length < m.text.length then title ++ "..." else title).length ≤ 43
        have h40 : (jsSubstring m.text 40).length ≤ 40 := by
          show (m.text.data.take 40).length ≤ 40
          rw [List.length_take]
          exact min_le_left _ _
        have h3 : ("..." : String).length = 3 := rfl
        by_cases htext : m.text = ""
        · simp only [htext]
          decide
        · rw [if_neg (by simpa using htext)]
          show (if (jsSubstring m.text 40).length < m.text.length
            then jsSubstring m.text 40 ++ "..." else jsSubstring m.text 40).length ≤ 43
          by_cases hlt : (jsSubstring m.text 40).length < m.text.length
          · rw [if_pos hlt, String.length_append, h3]
            omega
          · rw [if_neg hlt]
            omega
  · intro hnone
    have hfind : msgs.find? (fun m => m.sender == "user") = none := by
      rw [List.find?_eq_none]
      intro m hm
      simpa using hnone m hm
    unfold generateSessionTitle
    rw [hfind]

/-- C6 witness: the bound and the default instantiated at a concrete list. -/
theorem generateSessionTitle_spec_witness :
    (generateSessionTitle [{ id := "1", sender := "aws", text := "hi" }]).length ≤ 43 ∧
    generateSessionTitle [{ id := "1", sender := "aws", text := "hi" }] = "New Chat" := by
  refine ⟨(generateSessionTitle_spec _).1, (generateSessionTitle_spec _).2 ?_⟩
  intro m hm
  simp only [List.mem_singleton] at hm
  subst hm
  decide

/-- C4: `switchSession` never fails.  When the requested id occurs in the
list, that session becomes current and its stored messages become the active
message list, the list itself unchanged; when it does not occur, the result is
the input list with exactly one freshly created session (empty messages,
`isNew` set) inserted at the front, that session is current, and the active
message list is empty. -/
theorem switchSession_spec (sessionId freshId : String) (now : Int) (L : List Session) :
    ((∀ s ∈ L, s.id ≠ sessionId) →
      switchSession sessionId L freshId now =
        { sessions := createNewSession freshId now :: L,
          currentSessionId := freshId, messages := [] } ∧
      (createNewSession freshId now).messages = [] ∧
      (createNewSession freshId now).isNew = true) ∧
    (∀ s, L.find? (fun t => t.id == sessionId) = some s →
      switchSession sessionId L freshId now =
        { sessions := L, currentSessionId := sessionId, messages := s.messages }) := by
  constructor
  · intro hnot
    have hfind : L.find? (fun t => t.id == sessionId) = none := by
      rw [List.find?_eq_none]
      intro t ht
      simpa using hnot t ht
    have hfilter : L.filter (fun s => s.id != sessionId) = L := by
      rw [List.filter_eq_self]
      intro t ht
      simpa using hnot t ht
    refine ⟨?_, rfl, rfl⟩
    unfold switchSession
    rw [hfind]
    simp only [hfilter]
    rfl
  · intro s hs
    unfold switchSession
    rw [hs]

/-- C4 witness: switching to an id absent from a one-session list, and
switching to an id present in it. -/
theorem switchSession_spec_witness :
    switchSession "b" [createNewSession "a" 0] "c" 5 =
      { sessions := [createNewSession "c" 5, createNewSession "a" 0],
        currentSessionId := "c", messages := [] } ∧
    switchSession "a" [createNewSession "a" 0] "c" 5 =
      { sessions := [createNewSession "a" 0], currentSessionId := "a", messages := [] } := by
  constructor
  · exact ((switchSession_spec "b" "c" 5 [createNewSession "a" 0]).1 (by decide)).1
  · exact (switchSession_spec "a" "c" 5 [createNewSession "a" 0]).2
      (createNewSession "a" 0) (by decide)

/-- C5: appending a user-authored message to a session with `isNew = true` and
an empty message list sets the session's name to `generateSessionTitle` of the
appended message and clears `isNew`; appending any subsequent message (a
second user prompt or an assistant reply) does not change the name. -/
theorem appendUserMessage_titles (s : Session) (m m2 : Message) (now now2 : Int)
    (hnew : s.isNew = true) (hempty : s.messages = []) :
    (appendUserMessage now m s).name = generateSessionTitle [m] ∧
    (appendUserMessage now m s).isNew = false ∧
    (appendUserMessage now2 m2 (appendUserMessage now m s)).name =
      (appendUserMessage now m s).name ∧
    (appendAwsMessage m2 (appendUserMessage now m s)).name =
      (appendUserMessage now m s).name := by
  refine ⟨?_, rfl, rfl, rfl⟩
  unfold appendUserMessage
  simp only [hnew, hempty]
  rfl

/-- C5 witness: the titling behaviour at a concrete new session and message. -/
theorem appendUserMessage_titles_witness :
    (appendUserMessage 1 { id := "m", sender := "user", text := "hello" }
        (createNewSession "a" 0)).name = generateSessionTitle
        [{ id := "m", sender := "user", text := "hello" }] ∧
    (appendUserMessage 1 { id := "m", sender := "user", text := "hello" }
        (createNewSession "a" 0)).isNew = false :=
  ⟨(appendUserMessage_titles (createNewSession "a" 0)
      { id := "m", sender := "user", text := "hello" }
      { id := "n", sender := "aws", text := "x" } 1 2 rfl rfl).1,
   (appendUserMessage_titles (createNewSession "a" 0)
      { id := "m", sender := "user", text := "hello" }
      { id := "n", sender := "aws", text := "x" } 1 2 rfl rfl).2.1⟩

/-- C10: every record produced by `persistSessions` carries `isNew = some true`
exactly when its message list is empty and omits the flag (`none`) otherwise;
the in-memory `isNew` value is never itself persisted (overwriting it before
persisting changes nothing); and a reloaded session is treated as new if and
only if it has no messages. -/
theorem persistSessions_isNew_recomputed (sessions : List Session) (b : Bool)
    (p : PersistedSession) (hp : p ∈ persistSessions sessions)
    (fallbackId : String) (now : Int) :
    (p.isNew = some true ↔ p.messages = []) ∧
    (p.messages ≠ [] → p.isNew = none) ∧
    persistSessions (sessions.map fun s => { s with isNew := b }) =
      persistSessions sessions ∧
    ((loadSession fallbackId now p).isNew = true ↔
      (loadSession fallbackId now p).messages = []) := by
  obtain ⟨hq, hfilter⟩ := List.mem_filter.mp hp
  obtain ⟨s, _hs, hmap⟩ := List.mem_map.mp hq
  refine ⟨?_, ?_, ?_, ?_⟩
  · subst hmap
    by_cases hlen : s.messages.length = 0
    · simp [hlen, List.length_eq_zero.mp hlen]
    · have : ¬s.messages = [] := fun h => hlen (by simp [h])
      simp [hlen, this]
  · intro hne
    subst hmap
    have : ¬s.messages.length = 0 := by
      intro h
      exact hne (List.length_eq_zero.mp h)
    simp [this]
  · unfold persistSessions
    rw [List.map_map]
    rfl
  · show (p.messages.length == 0) = true ↔ p.messages = []
    simp [List.length_eq_zero]

/-- C10 witness: the recomputation and persist-invariance at a concrete list. -/
theorem persistSessions_isNew_recomputed_witness :
    ({ id := "a", name := "n", timestamp := 0, messages := [], isNew := some true }
        : PersistedSession).isNew = some true ∧
    persistSessions
        (([{ id := "a", name := "n", timestamp := 0, messages := [], isNew := false }]
            : List Session).map fun s => { s with isNew := true }) =
      persistSessions
        [{ id := "a", name := "n", timestamp := 0, messages := [], isNew := false }] := by
  constructor
  · exact (persistSessions_isNew_recomputed
      [{ id := "a", name := "n", timestamp := 0, messages := [], isNew := false }]
      true ({ id := "a", name := "n", timestamp := 0, messages := [], isNew := some true }
        : PersistedSession) (by decide) "f" 0).1.mpr rfl
  · exact (persistSessions_isNew_recomputed
      [{ id := "a", name := "n", timestamp := 0, messages := [], isNew := false }]
      true ({ id := "a", name := "n", timestamp := 0, messages := [], isNew := some true }
        : PersistedSession) (by decide) "f" 0).2.2.1

/-- The session picked by `mostRecentOf` is one of the sessions it was
computed from. -/
theorem mostRecentOf_mem (s : Session) (rest : List Session) :
    mostRecentOf s rest ∈ s :: rest := by
  induction rest generalizing s with
  | nil => exact List.mem_singleton.mpr rfl
  | cons t ts ih =>
      show mostRecentOf (if t.timestamp > s.timestamp then t else s) ts ∈ s :: t :: ts
      by_cases hc : t.timestamp > s.timestamp
      · rw [if_pos hc]
        exact List.mem_cons_of_mem s (ih t)
      · rw [if_neg hc]
        rcases List.mem_cons.mp (ih s) with h | h
        · rw [h]
          exact List.mem_cons_self s (t :: ts)
        · exact List.mem_cons_of_mem s (List.mem_cons_of_mem t h)

/-- The session picked by `mostRecentOf` has a maximal timestamp. -/
theorem mostRecentOf_le (s : Session) (rest : List Session) :
    ∀ x ∈ s :: rest, x.timestamp ≤ (mostRecentOf s rest).timestamp := by
  induction rest generalizing s with
  | nil =>
      intro x hx
      rw [List.mem_singleton.mp hx]
      exact le_refl _
  | cons t ts ih =>
      intro x hx
      show x.timestamp ≤
        (mostRecentOf (if t.timestamp > s.timestamp then t else s) ts).timestamp
      have hbase : s.timestamp ≤ (if t.timestamp > s.timestamp then t else s).timestamp ∧
          t.timestamp ≤ (if t.timestamp > s.timestamp then t else s).timestamp := by
        by_cases hc : t.timestamp > s.timestamp
        · rw [if_pos hc]
          exact ⟨le_of_lt hc, le_refl _⟩
        · rw [if_neg hc]
          exact ⟨le_refl _, not_lt.mp hc⟩
      have hself := ih (if t.timestamp > s.timestamp then t else s) _
        (List.mem_cons_self _ _)
      rcases List.mem_cons.mp hx with rfl | hx2
      · exact le_trans hbase.1 hself
      rcases List.mem_cons.mp hx2 with rfl | hx3
      · exact le_trans hbase.2 hself
      · exact ih _ x (List.mem_cons_of_mem _ hx3)

/-- C1: deleting the current session leaves the remaining session with the
greatest timestamp current (the resulting list being the filtered remainder),
or, when no session remains, exactly one freshly created empty session which
becomes current; deleting a non-current session leaves the current session id
unchanged. -/
theorem handleConfirmDelete_spec (toDelete currentId freshId : String) (now : Int)
    (L : List Session) :
    (toDelete = currentId → L.filter (fun s => s.id != toDelete) ≠ [] →
      (handleConfirmDelete toDelete currentId L freshId now).sessions =
        L.filter (fun s => s.id != toDelete) ∧
      ∃ s ∈ L.filter (fun s => s.id != toDelete),
        (handleConfirmDelete toDelete currentId L freshId now).currentSessionId = s.id ∧
        ∀ t ∈ L.filter (fun s => s.id != toDelete), t.timestamp ≤ s.timestamp) ∧
    (toDelete = currentId → L.filter (fun s => s.id != toDelete) = [] →
      handleConfirmDelete toDelete currentId L freshId now =
        { sessions := [createNewSession freshId now], currentSessionId := freshId } ∧
      (createNewSession freshId now).messages = []) ∧
    (toDelete ≠ currentId →
      (handleConfirmDelete toDelete currentId L freshId now).currentSessionId =
        currentId) := by
  refine ⟨?_, ?_, ?_⟩
  · intro heq hne
    have hbeq : (toDelete == currentId) = true := by simpa using heq
    rcases hfil : L.filter (fun s => s.id != toDelete) with _ | ⟨s, rest⟩
    · exact absurd hfil hne
    · have hcompute : handleConfirmDelete toDelete currentId L freshId now =
          { sessions := s :: rest, currentSessionId := (mostRecentOf s rest).id } := by
        unfold handleConfirmDelete
        rw [hfil]
        simp [hbeq]
      rw [hfil]
      exact ⟨by rw [hcompute], mostRecentOf s rest, mostRecentOf_mem s rest,
        by rw [hcompute], mostRecentOf_le s rest⟩
  · intro heq hemp
    have hbeq : (toDelete == currentId) = true := by simpa using heq
    refine ⟨?_, rfl⟩
    unfold handleConfirmDelete
    rw [hemp]
    simp [hbeq, createNewSession]
  · intro hne
    have hbeq : (toDelete == currentId) = false := by simpa using hne
    unfold handleConfirmDelete
    simp [hbeq]

/-- C1 witness: deleting the current session among two, deleting the only
session, and deleting a non-current session, at concrete inputs. -/
theorem handleConfirmDelete_spec_witness :
    (handleConfirmDelete "a" "a" [createNewSession "a" 0, createNewSession "b" 5]
        "f" 9).sessions =
      [createNewSession "a" 0, createNewSession "b" 5].filter (fun s => s.id != "a") ∧
    handleConfirmDelete "a" "a" [createNewSession "a" 0] "f" 9 =
      { sessions := [createNewSession "f" 9], currentSessionId := "f" } ∧
    (handleConfirmDelete "b" "a" [createNewSession "a" 0, createNewSession "b" 5]
        "f" 9).currentSessionId = "a" :=
  ⟨((handleConfirmDelete_spec "a" "a" "f" 9
      [createNewSession "a" 0, createNewSession "b" 5]).1 rfl (by decide)).1,
   ((handleConfirmDelete_spec "a" "a" "f" 9 [createNewSession "a" 0]).2.1 rfl
      (by decide)).1,
   (handleConfirmDelete_spec "b" "a" "f" 9
      [createNewSession "a" 0, createNewSession "b" 5]).2.2 (by decide)⟩

/-- All submissions falling strictly inside the window opened at `t0` are
dropped by the throttle. -/
theorem runThrottle_window_drop (t0 : Int) (es : List (Int × String))
    (hwin : ∀ e ∈ es, e.1 - t0 < 1000) :
    runThrottle 1000 (some t0) es = [] := by
  induction es with
  | nil => rfl
  | cons e es ih =>
      have he := hwin e (List.mem_cons_self e es)
      have hstep : throttleStep 1000 (some t0) e.1 = (false, some t0) := by
        simp only [throttleStep]
        rw [if_neg (by omega)]
      simp only [runThrottle, hstep]
      exact ih (fun x hx => hwin x (List.mem_cons_of_mem e hx))

/-- C2: for every nonempty sequence of ask submissions all falling within one
1000 ms window, exactly the first submission invokes the wrapped handler - the
excess submissions are silently dropped, with no trailing-edge invocation -
and, when the first submission passes the guards (nonempty trimmed prompt,
signed-in user, configured Lambda function), exactly one remote inference call
is initiated. -/
theorem ask_throttle_single_call (user : Option String) (lambdaFunction : String)
    (e : Int × String) (es : List (Int × String))
    (hwin : ∀ x ∈ es, e.1 ≤ x.1 ∧ x.1 < e.1 + 1000)
    (hguard : initiatesRemoteCall user lambdaFunction e.2 = true) :
    runThrottle 1000 none (e :: es) = [e] ∧
    remoteCallCount user lambdaFunction (e :: es) = 1 := by
  have hrun : runThrottle 1000 none (e :: es) = [e] := by
    have hstep : throttleStep 1000 none e.1 = (true, some e.1) := rfl
    simp only [runThrottle, hstep]
    rw [runThrottle_window_drop e.1 es (fun x hx => by have := hwin x hx; omega)]
  refine ⟨hrun, ?_⟩
  unfold remoteCallCount
  rw [hrun]
  simp [hguard]

/-- C2 witness: three submissions at 0 ms, 1 ms and 999 ms - one remote call,
namely the first submission. -/
theorem ask_throttle_single_call_witness :
    runThrottle 1000 none [(0, "hi"), (1, "again"), (999, "more")] = [(0, "hi")] ∧
    remoteCallCount (some "u") "fn" [(0, "hi"), (1, "again"), (999, "more")] = 1 :=
  ask_throttle_single_call (some "u") "fn" (0, "hi") [(1, "again"), (999, "more")]
    (by decide) (by decide)

/-- C7 counterexample: an answer whose very first line begins with a list
bullet - no preceding newline, no fenced block - is not flagged as
rich-formatted by the code. -/
theorem isMarkdownAnswer_first_line_bullet_cex :
    isMarkdownAnswer "* item one" = false := by decide

/-- C7 (amended): the normalized answer is flagged as rich-formatted iff it
contains a fenced code block marker, or a list-bullet pattern immediately
preceded by a newline; a bullet at the very start of the text (with no
preceding newline character) is not flagged. -/
theorem isMarkdownAnswer_iff (text : String) :
    isMarkdownAnswer text = true ↔
      ("```".data <:+: text.data ∨ "\n*".data <:+: text.data ∨
        "\n- ".data <:+: text.data) := by
  unfold isMarkdownAnswer jsIncludes
  simp [or_assoc]

/-- C8: the telemetry log sub-call queries only the trailing 1-hour window
with a limit of 20 entries; a failed fetch yields exactly the sentinel line
"Error fetching logs.", a successful fetch with zero events exactly the
sentinel line "No recent logs found."; every line of a successful fetch is the
trimmed event message (or the placeholder for an empty or absent message); and
for display a long line is truncated to its first 150 characters plus an
ellipsis while the tooltip keeps the full text. -/
theorem fetchCloudWatchLogs_spec (lambdaFunction : String) (now : Int)
    (prev : List String) (events : List (Option String)) (log : String) :
    (logQueryParams lambdaFunction now).limit = 20 ∧
    (logQueryParams lambdaFunction now).startTime = now - 3600000 ∧
    applyLogFetch prev .failed = ["Error fetching logs."] ∧
    applyLogFetch prev (.success []) = ["No recent logs found."] ∧
    (events ≠ [] →
      applyLogFetch prev (.success events) = events.map logLineOf ∧
      ∀ l ∈ events.map logLineOf,
        l = "Empty log message" ∨ ∃ t, some t ∈ events ∧ l = jsTrim t) ∧
    displayLogTitle log = log ∧
    (log.length ≤ 150 → displayLogText log = log) ∧
    (log.length > 150 → displayLogText log = jsSubstring log 150 ++ "...") := by
  refine ⟨rfl, by show now - 60 * 60 * 1000 = now - 3600000; norm_num, rfl, rfl,
    ?_, rfl, ?_, ?_⟩
  · intro hne
    have hlen : ((events.map logLineOf).length == 0) = false := by
      cases events with
      | nil => exact absurd rfl hne
      | cons e es => rfl
    constructor
    · show (if ((events.map logLineOf).length == 0) = true then _ else _) = _
      rw [hlen]
      simp
    · intro l hl
      obtain ⟨m, hm, heq⟩ := List.mem_map.mp hl
      cases m with
      | none => exact Or.inl heq.symm
      | some t =>
          by_cases ht : (jsTrim t == "") = true
          · refine Or.inl ?_
            rw [← heq]
            show (if (jsTrim t == "") = true then "Empty log message" else jsTrim t) =
              "Empty log message"
            rw [if_pos ht]
          · refine Or.inr ⟨t, hm, ?_⟩
            rw [← heq]
            show (if (jsTrim t == "") = true then "Empty log message" else jsTrim t) =
              jsTrim t
            rw [if_neg ht]
  · intro h
    unfold displayLogText
    rw [if_neg (by omega)]
  · intro h
    unfold displayLogText
    rw [if_pos h]

/-- C8 witness: the window, the sentinel, the trimming and the truncation at
concrete inputs. -/
theorem fetchCloudWatchLogs_spec_witness :
    (logQueryParams "fn" 3600000).limit = 20 ∧
    applyLogFetch ["old"] (.success [some " x ", none]) = ["x", "Empty log message"] ∧
    displayLogText "short" = "short" := by
  refine ⟨(fetchCloudWatchLogs_spec "fn" 3600000 ["old"] [some " x ", none] "short").1,
    ?_, ?_⟩
  · have h := ((fetchCloudWatchLogs_spec "fn" 3600000 ["old"] [some " x ", none]
      "short").2.2.2.2.1 (by decide)).1
    rw [h]
    decide
  · exact (fetchCloudWatchLogs_spec "fn" 3600000 ["old"] [some " x ", none]
      "short").2.2.2.2.2.2.1 (by decide)

/-- A poller step preserves the invariant that the current fetch token is
below the issue counter. -/
theorem pollStep_preserves_lt (σ : PollState)
    (h : ∀ k, σ.current = some k → k < σ.issued) (e : PollEvent) :
    ∀ k, (pollStep σ e).current = some k → k < (pollStep σ e).issued := by
  intro k hk
  cases e with
  | start =>
      have : some σ.issued = some k := hk
      have hik : σ.issued = k := Option.some.inj this
      show k < σ.issued + 1
      omega
  | resolve token events =>
      by_cases hc : (some token == σ.current) = true
      · simp only [pollStep, hc, if_pos] at hk ⊢
        exact h k hk
      · simp only [pollStep, hc, if_neg, Bool.false_eq_true, reduceIte] at hk ⊢
        exact h k hk
  | reject token => exact h k hk

/-- In every reachable poller state the current fetch token is below the issue
counter. -/
theorem foldl_poll_inv (init : PollState) (trace : List PollEvent)
    (h : ∀ k, init.current = some k → k < init.issued) :
    ∀ k, (trace.foldl pollStep init).current = some k →
      k < (trace.foldl pollStep init).issued := by
  induction trace generalizing init with
  | nil => exact h
  | cons e es ih => exact ih (pollStep init e) (pollStep_preserves_lt init h e)

/-- A resolved fetch whose token is stale leaves the poller state unchanged. -/
theorem pollStep_stale_resolve (σ : PollState) (j : Nat)
    (evs : List (Option String)) (hj : some j ≠ σ.current) :
    pollStep σ (.resolve j evs) = σ := by
  have hb : (some j == σ.current) = false := by simpa using hj
  simp only [pollStep, hb, Bool.false_eq_true, reduceIte]

/-- C9 (amended): a superseded log fetch that resolves successfully is
discarded - it never changes the state - so when a new poll cycle starts while
the fetch current in state `runPoll trace` is still in flight, that fetch's
later successful resolution leaves the newer cycle's state untouched.  (A
superseded fetch that instead rejects is not covered: the error path writes
the sentinel without consulting the abort signal.) -/
theorem poll_stale_success_discarded (trace : List PollEvent) (k : Nat)
    (events : List (Option String))
    (hk : (runPoll trace).current = some k) :
    (∀ j evs, some j ≠ (runPoll trace).current →
      pollStep (runPoll trace) (.resolve j evs) = runPoll trace) ∧
    pollStep (pollStep (runPoll trace) .start) (.resolve k events) =
      pollStep (runPoll trace) .start := by
  have hlt : k < (runPoll trace).issued :=
    foldl_poll_inv { issued := 0, current := none, logs := [] } trace
      (fun _ hcon => Option.noConfusion hcon) k hk
  refine ⟨fun j evs hj => pollStep_stale_resolve _ j evs hj, ?_⟩
  apply pollStep_stale_resolve
  show some k ≠ some (runPoll trace).issued
  intro hcontra
  have : k = (runPoll trace).issued := Option.some.inj hcontra
  omega

/-- C9 counterexample: fetch 0 starts, a second cycle starts (cancelling fetch
0), fetch 1 resolves and writes the fresh logs, then the cancelled fetch 0
rejects - its late failure overwrites the newer cycle's state with the error
sentinel, so a cancelled fetch's result is not always discarded. -/
theorem poll_stale_error_overwrites_cex :
    (runPoll [.start, .start, .resolve 1 [some "x"], .reject 0]).logs =
      ["Error fetching logs."] ∧
    (runPoll [.start, .start, .resolve 1 [some "x"]]).logs = ["x"] := by
  constructor <;> decide

/-- C9 witness: a concrete superseded fetch whose successful result is
discarded. -/
theorem poll_stale_success_discarded_witness :
    pollStep (pollStep (runPoll [PollEvent.start]) .start)
      (.resolve 0 [some "stale"]) = pollStep (runPoll [PollEvent.start]) .start :=
  (poll_stale_success_discarded [PollEvent.start] 0 [some "stale"] (by decide)).2

/-- C3: evaluation at the claim's response shapes.  The direct payload yields
the answer "hi" without markdown and the 200-envelope's body is parsed a
second time, as claimed; but the 500-envelope with body error "boom" yields
the generic invalid-response failure instead of "boom": the application error
thrown inside the parsing block (whose message, per `parseLambdaBody`, is
indeed "boom") is caught by that block's own parse-error handler and
replaced. -/
theorem normalizeLambdaPayload_swallows_app_error :
    normalizeLambdaPayload "\x7b\"response\":\"hi\"\x7d" =
      NormalizedAnswer.answer "hi" false ∧
    normalizeLambdaPayload
        "\x7b\"statusCode\":200,\"body\":\"\x7b\\\"response\\\":\\\"hi ``` code ```\\\"\x7d\"\x7d" =
      NormalizedAnswer.answer "hi ``` code ```" true ∧
    parseLambdaBody
        "\x7b\"statusCode\":500,\"body\":\"\x7b\\\"error\\\":\\\"boom\\\"\x7d\"\x7d" =
      Except.error "boom" ∧
    normalizeLambdaPayload
        "\x7b\"statusCode\":500,\"body\":\"\x7b\\\"error\\\":\\\"boom\\\"\x7d\"\x7d" =
      NormalizedAnswer.failure "Received an invalid response from the service." :=
  ⟨by decide, by decide, by rfl, by decide⟩

end Brainwave
